import Mathlib

/-!
Verification of the conduit-cli traffic-monitor supervisor
(`cli/scripts/monitor/main.go`).

The monitor supervises a `conduit` worker process: it persists a usage
ledger (`TrafficState`), scrapes the worker's Prometheus metrics endpoint,
accounts usage deltas, throttles on a quota threshold, and restarts the
worker to apply mode changes.  This file is a shallow embedding of the
pure logic of that program: timestamps are modelled as `Int` nanoseconds
(Go `time.Time`), byte counters as `Int` (Go `int64`; no claim touches
overflow), strings as `List Char` where parsing lemmas are needed.
-/

namespace ConduitMonitor

/-- `TrafficState` from monitor/main.go: the persisted usage ledger
`{periodStartTime, bytesUsed, isThrottled}`. -/
structure TrafficState where
  periodStartTime : Int
  bytesUsed : Int
  isThrottled : Bool
deriving Repr, DecidableEq

/-- The monitor-side mutable state touched by `checkTraffic` /
`updateUsage`: the ledger plus the in-memory `lastScrapeTotal`. -/
structure MonState where
  state : TrafficState
  lastScrapeTotal : Int
deriving Repr, DecidableEq

/-- `periodDuration := time.Duration(cfg.TrafficPeriodDays) * 24 * time.Hour`
in nanoseconds. -/
def periodDuration (trafficPeriodDays : Int) : Int :=
  trafficPeriodDays * 24 * 60 * 60 * 1000000000

/-- The period-rollover step of `Supervisor.checkTraffic` (main.go
lines 422-451).  Go's `now.After(periodEnd)` is strict `>`.
On rollover the ledger is reset (`periodStartTime = now`, `bytesUsed = 0`,
`isThrottled = false`) and `lastScrapeTotal` is set to 0; the returned
flags are `(didRollover, triggersRestart)`, where a restart is raised
exactly when the ledger was throttled (`wasThrottled`). -/
def checkRollover (pd now : Int) (m : MonState) : MonState × Bool × Bool :=
  let periodEnd := m.state.periodStartTime + pd
  if now > periodEnd then
    let wasThrottled := m.state.isThrottled
    (⟨⟨now, 0, false⟩, 0⟩, true, wasThrottled)
  else
    (m, false, false)

/-- `Supervisor.updateUsage` (main.go lines 464-501) as a pure function:
given the threshold in bytes, the current monitor state and the scraped
`currentSessionTotal`, returns the new state and whether a restart is
triggered (`needsRestart`). -/
def updateUsage (thresholdBytes : Int) (m : MonState)
    (currentSessionTotal : Int) : MonState × Bool :=
  let delta0 := currentSessionTotal - m.lastScrapeTotal
  let delta := if delta0 < 0 then currentSessionTotal else delta0
  let bytesUsed :=
    if delta > 0 then m.state.bytesUsed + delta else m.state.bytesUsed
  if !m.state.isThrottled && bytesUsed ≥ thresholdBytes then
    (⟨⟨m.state.periodStartTime, bytesUsed, true⟩, currentSessionTotal⟩, true)
  else
    (⟨⟨m.state.periodStartTime, bytesUsed, m.state.isThrottled⟩,
      currentSessionTotal⟩, false)

/-- The capacity-1 buffered `restartChan` (`make(chan struct{}, 1)` in
`NewSupervisor`), modelled as the list of buffered tokens. -/
def RestartChan := List Unit

/-- `Supervisor.triggerRestart` (main.go lines 503-509): a non-blocking
send on the capacity-1 channel; when the buffer is full the `default`
branch drops the request. -/
def triggerRestart (c : List Unit) : List Unit :=
  if c.length < 1 then c ++ [()] else c

/-- Receiving from `restartChan` in the `Run` select: consumes one pending
token when present (which leads to exactly one shutdown-and-relaunch). -/
def consumeRestart (c : List Unit) : Option (List Unit) :=
  match c with
  | [] => none
  | _ :: t => some t

/-! ## Go string primitives, modelled over `List Char` -/

/-- Strings as lists of characters. -/
abbrev Str := List Char

/-- `strings.Split(s, "\n")`: split on a single separator character,
keeping empty segments (`Split` of an empty string yields one empty
segment). -/
def splitOnChar (sep : Char) : Str → List Str
  | [] => [[]]
  | c :: cs =>
    if c = sep then [] :: splitOnChar sep cs
    else
      match splitOnChar sep cs with
      | [] => [[c]]
      | l :: ls => (c :: l) :: ls

/-- `strings.HasPrefix`. -/
def hasPrefix : Str → Str → Bool
  | _, [] => true
  | [], _ :: _ => false
  | a :: as, b :: bs => a = b && hasPrefix as bs

/-- The whitespace characters relevant to `strings.Fields`
(`unicode.IsSpace`, restricted to ASCII whitespace). -/
def isGoSpace (c : Char) : Bool :=
  c = ' ' || c = '\t' || c = '\r' || c = '\n' || c = '\x0b' || c = '\x0c'

/-- Split at every single whitespace character (keeping empty segments);
the auxiliary recursion behind `goFields`. -/
def splitWS : Str → List Str
  | [] => [[]]
  | c :: cs =>
    if isGoSpace c then [] :: splitWS cs
    else
      match splitWS cs with
      | [] => [[c]]
      | l :: ls => (c :: l) :: ls

/-- `strings.Fields`: split around runs of whitespace, dropping the empty
segments that splitting at each whitespace character produces. -/
def goFields (s : Str) : List Str :=
  (splitWS s).filter (fun f => f ≠ [])

/-- Numeric value of a digit string (most significant first). -/
def digitsVal (ds : Str) : Nat :=
  ds.foldl (fun a c => a * 10 + (c.toNat - '0'.toNat)) 0

/-- Model of Go's `strconv.ParseFloat(s, 64)` followed by `int64(val)`
truncation toward zero, restricted to optionally-signed decimal literals
with an optional fractional part (`"500"`, `"-5"`, `"5."`, `".5"`,
`"1.5"`).  Exponents, hex floats and inf/nan spellings, which never occur
in the metric samples or flag values at issue, are not modelled and
return `none`, as does every string `ParseFloat` rejects (`"abc"`,
`"-m"`, `""`, `"."`). -/
def parseGoNumber (s : Str) : Option Int :=
  let (sign, mag) : Int × Str :=
    match s with
    | '-' :: t => (-1, t)
    | '+' :: t => (1, t)
    | _ => (1, s)
  let intPart := mag.takeWhile (fun c => c ≠ '.')
  let rest := mag.dropWhile (fun c => c ≠ '.')
  match rest with
  | [] =>
    if intPart ≠ [] && intPart.all Char.isDigit then
      some (sign * (digitsVal intPart : Int))
    else none
  | _ :: frac =>
    if (intPart ≠ [] || frac ≠ []) && intPart.all Char.isDigit &&
        frac.all Char.isDigit && frac.all (fun c => c ≠ '.') then
      some (sign * (digitsVal intPart : Int))
    else none

/-- `looksLikeValue` from main.go lines 82-91: a token is a flag value if
it does not start with `-`, or parses as a (negative) number. -/
def looksLikeValue (s : Str) : Bool :=
  if !hasPrefix s ['-'] then true
  else (parseGoNumber s).isSome

/-! ## Metrics scraping (`Supervisor.scrapeBytesUsed`, lines 511-558) -/

/-- The exact prefix `"conduit_bytes_uploaded "` (trailing space) used
for metric-name matching. -/
def uploadPrefix : Str := "conduit_bytes_uploaded ".data

/-- The exact prefix `"conduit_bytes_downloaded "` (trailing space). -/
def downloadPrefix : Str := "conduit_bytes_downloaded ".data

/-- The per-line step of the scrape parser: comment lines (prefix `#`)
are skipped; a line starting with a counter name followed by a space has
its second field parsed, and on parse failure (or a missing field) the
counter is left unchanged. -/
def processLine (acc : Int × Int) (line : Str) : Int × Int :=
  if hasPrefix line ['#'] then acc
  else
    let up :=
      if hasPrefix line uploadPrefix then
        match goFields line with
        | _ :: v :: _ =>
          match parseGoNumber v with
          | some n => n
          | none => acc.1
        | _ => acc.1
      else acc.1
    let down :=
      if hasPrefix line downloadPrefix then
        match goFields line with
        | _ :: v :: _ =>
          match parseGoNumber v with
          | some n => n
          | none => acc.2
        | _ => acc.2
      else acc.2
    (up, down)

/-- Parse a whole metrics body: split on newlines, fold `processLine`
starting from `(0, 0)` (both counters default to 0). -/
def parseMetricsBody (body : Str) : Int × Int :=
  (splitOnChar '\n' body).foldl processLine (0, 0)

/-- `Supervisor.scrapeBytesUsed`: a transport failure or non-200 status
(abstracted by `httpOk = false`) is an error; a received body always
parses successfully and the scrape returns `up + down`. -/
def scrapeBytesUsed (httpOk : Bool) (body : Str) : Option Int :=
  if httpOk then
    some ((parseMetricsBody body).1 + (parseMetricsBody body).2)
  else none

/-! ## Launch-argument preparation (`filterArgs`, `Supervisor.Run`) -/

/-- `filterArgs` from main.go lines 577-603: removes every occurrence of
`longFlag`/`shortFlag` (skipping the following token too when it looks
like a value) and every `flag=value` form. -/
def filterArgs (longFlag shortFlag : Str) : List Str → List Str
  | [] => []
  | [a] =>
    if a = longFlag || a = shortFlag then []
    else if hasPrefix a (longFlag ++ ['=']) || hasPrefix a (shortFlag ++ ['=']) then []
    else [a]
  | a :: b :: rest =>
    if a = longFlag || a = shortFlag then
      if looksLikeValue b then filterArgs longFlag shortFlag rest
      else filterArgs longFlag shortFlag (b :: rest)
    else if hasPrefix a (longFlag ++ ['=']) || hasPrefix a (shortFlag ++ ['=']) then
      filterArgs longFlag shortFlag (b :: rest)
    else
      a :: filterArgs longFlag shortFlag (b :: rest)

/-- `"--max-clients"`. -/
def maxClientsFlag : Str := "--max-clients".data
/-- `"-m"`. -/
def maxClientsShort : Str := "-m".data
/-- `"--bandwidth"`. -/
def bandwidthFlag : Str := "--bandwidth".data
/-- `"-b"`. -/
def bandwidthShort : Str := "-b".data

/-- The argument preparation of `Supervisor.Run` (lines 309-327): in
THROTTLED mode, strip both flag families and append the two override
pairs (`mcStr`, `bwStr` stand for the formatted `MinConnections` /
`MinBandwidthMbps` config values); in NORMAL mode the operator arguments
are passed unchanged. -/
def launchArgs (conduitArgs : List Str) (isThrottled : Bool)
    (mcStr bwStr : Str) : List Str :=
  if isThrottled then
    let a1 := filterArgs maxClientsFlag maxClientsShort conduitArgs
    let a2 := filterArgs bandwidthFlag bandwidthShort a1
    a2 ++ [maxClientsFlag, mcStr, bandwidthFlag, bwStr]
  else conduitArgs

/-! ## Child shutdown (`Supervisor.shutdownChild`, lines 375-403) -/

/-- Observable events of a shutdown, in order. -/
inductive StopEvent
  | sigterm
  | sigkill
  | recvExit
deriving DecidableEq, Repr

/-- `Supervisor.shutdownChild` for a started child, as the ordered event
trace of one stop request.  `exitsBeforeTimeout` abstracts which arm of
the `select` fires first: the wait-channel receive, or the 5-second
`time.After`.  In the timeout arm the code sends `SIGKILL` and then
blocks on `<-waitErr` with no further timeout. -/
def shutdownChild (exitsBeforeTimeout : Bool) : List StopEvent :=
  if exitsBeforeTimeout then
    [StopEvent.sigterm, StopEvent.recvExit]
  else
    [StopEvent.sigterm, StopEvent.sigkill, StopEvent.recvExit]

/-- The graceful-stop timeout raced against the exit notification:
`time.After(5 * time.Second)`. -/
def shutdownTimeoutSeconds : Nat := 5

/-- Whether a stop was forced: `SIGKILL` appears in the trace exactly
when the timeout arm fired. -/
def stopForced (exitsBeforeTimeout : Bool) : Bool := !exitsBeforeTimeout

/-! ## The main loop of `Supervisor.Run` (lines 298-368) -/

/-- The event that wakes the `select` at the bottom of one loop
iteration. -/
inductive LoopEvent
  | childExit (exitCode : Int)
  | restartRequest
  | osSignal
  | stopRequest
deriving DecidableEq, Repr

/-- What one loop iteration does after its `select` fires. -/
inductive IterResult
  | fatalError
  | stopped
  | backoffRelaunch (backoffSeconds : Nat)
  | shutdownRelaunch
deriving DecidableEq, Repr

/-- One iteration of `Supervisor.Run`'s child-management loop, given the
monitor state visible to it, whether `Start` succeeded, and the event
that fired.  A failed `Start` returns an error from `Run` (fatal, no
retry).  A non-zero child exit sleeps 5 seconds and loops to relaunch; a
zero exit returns nil (`STOPPED`); a restart request shuts the child down
and loops; a signal or stop shuts the child down and returns.  The loop
body never mutates the ledger, so the returned state is unchanged. -/
def runIteration (m : MonState) (startOk : Bool) (ev : LoopEvent) :
    IterResult × MonState :=
  if !startOk then (IterResult.fatalError, m)
  else
    match ev with
    | LoopEvent.childExit c =>
      if c ≠ 0 then (IterResult.backoffRelaunch 5, m)
      else (IterResult.stopped, m)
    | LoopEvent.restartRequest => (IterResult.shutdownRelaunch, m)
    | LoopEvent.osSignal => (IterResult.stopped, m)
    | LoopEvent.stopRequest => (IterResult.stopped, m)

/-! ## Helper definitions used by the characterizations below -/

/-- The delta actually accounted by `updateUsage`: `currentTotal -
lastScrapeTotal`, replaced by `currentTotal` when negative (worker
restart). -/
def usageDelta (last current : Int) : Int :=
  if current - last < 0 then current else current - last

/-- The `bytesUsed` value after one `updateUsage` step: the delta is
added only when strictly positive. -/
def postBytesUsed (m : MonState) (c : Int) : Int :=
  if usageDelta m.lastScrapeTotal c > 0 then
    m.state.bytesUsed + usageDelta m.lastScrapeTotal c
  else m.state.bytesUsed

/-- An argument token that `filterArgs l s` targets: the flag itself
(long or short form) or a `flag=value` form. -/
def isFlagOcc (l s : Str) (x : Str) : Bool :=
  x = l || x = s || hasPrefix x (l ++ ['=']) || hasPrefix x (s ++ ['='])

/-! ## Characterization lemmas -/

/-- One `updateUsage` step, written out: `bytesUsed` becomes
`postBytesUsed`, `lastScrapeTotal` becomes the scraped total, the
throttle flag is OR-ed with the threshold test, and `needsRestart` fires
exactly on a fresh threshold crossing. -/
theorem updateUsage_eq (th : Int) (m : MonState) (c : Int) :
    updateUsage th m c =
      (⟨⟨m.state.periodStartTime, postBytesUsed m c,
         m.state.isThrottled || decide (postBytesUsed m c ≥ th)⟩, c⟩,
       !m.state.isThrottled && decide (postBytesUsed m c ≥ th)) := by
  unfold updateUsage postBytesUsed usageDelta
  cases hthr : m.state.isThrottled <;> split_ifs <;> (try simp_all) <;>
    (try split_ifs) <;> (try simp_all) <;> omega

/-- `hasPrefix` agrees with the existence of a suffix. -/
theorem hasPrefix_iff (p l : Str) : hasPrefix l p = true ↔ ∃ t, l = p ++ t := by
  induction p generalizing l with
  | nil =>
    simp [hasPrefix]
  | cons b bs ih =>
    cases l with
    | nil => simp [hasPrefix]
    | cons a as =>
      simp only [hasPrefix, Bool.and_eq_true, decide_eq_true_eq, ih,
        List.cons_append, List.cons.injEq]
      constructor
      · rintro ⟨rfl, t, rfl⟩; exact ⟨t, rfl, rfl⟩
      · rintro ⟨t, rfl, rfl⟩; exact ⟨rfl, t, rfl⟩

/-- Splitting a string that starts with a whitespace-free segment
followed by a space yields that segment first. -/
theorem splitWS_nonspace_head (name rest : Str)
    (hns : ∀ c ∈ name, isGoSpace c = false) :
    splitWS (name ++ ' ' :: rest) = name :: splitWS rest := by
  induction name with
  | nil => simp [splitWS, isGoSpace]
  | cons c cs ih =>
    rw [List.cons_append, splitWS]
    rw [if_neg (by simp [hns c (by simp)])]
    rw [ih (fun d hd => hns d (by simp [hd]))]

/-- The first field of a line of the form `name ++ " " ++ rest` is
exactly `name`, when `name` is nonempty and whitespace-free. -/
theorem goFields_name_head (name rest : Str) (hne : name ≠ [])
    (hns : ∀ c ∈ name, isGoSpace c = false) :
    (goFields (name ++ ' ' :: rest)).head? = some name := by
  unfold goFields
  rw [splitWS_nonspace_head name rest hns]
  simp [List.filter_cons, hne]

/-- A line that does not start with `"conduit_bytes_uploaded "` leaves
the upload counter unchanged. -/
theorem processLine_fst_stable (acc : Int × Int) (line : Str)
    (h : hasPrefix line uploadPrefix = false) :
    (processLine acc line).1 = acc.1 := by
  unfold processLine
  split_ifs <;> simp_all

/-- A line that does not start with `"conduit_bytes_downloaded "` leaves
the download counter unchanged. -/
theorem processLine_snd_stable (acc : Int × Int) (line : Str)
    (h : hasPrefix line downloadPrefix = false) :
    (processLine acc line).2 = acc.2 := by
  unfold processLine
  split_ifs <;> simp_all

/-- A line matching the upload prefix has name token exactly
`conduit_bytes_uploaded`. -/
theorem upload_token_of_match (line : Str)
    (h : hasPrefix line uploadPrefix = true) :
    (goFields line).head? = some "conduit_bytes_uploaded".data := by
  obtain ⟨t, rfl⟩ := (hasPrefix_iff _ _).1 h
  have he : uploadPrefix ++ t = "conduit_bytes_uploaded".data ++ ' ' :: t := by
    rw [show uploadPrefix = "conduit_bytes_uploaded".data ++ [' '] by rfl]
    rw [List.append_assoc]; rfl
  rw [he]
  exact goFields_name_head _ _ (by decide) (by decide)

/-- A line matching the download prefix has name token exactly
`conduit_bytes_downloaded`. -/
theorem download_token_of_match (line : Str)
    (h : hasPrefix line downloadPrefix = true) :
    (goFields line).head? = some "conduit_bytes_downloaded".data := by
  obtain ⟨t, rfl⟩ := (hasPrefix_iff _ _).1 h
  have he : downloadPrefix ++ t = "conduit_bytes_downloaded".data ++ ' ' :: t := by
    rw [show downloadPrefix = "conduit_bytes_downloaded".data ++ [' '] by rfl]
    rw [List.append_assoc]; rfl
  rw [he]
  exact goFields_name_head _ _ (by decide) (by decide)

/-- With no upload-matching line, the upload counter stays at its
initial value. -/
theorem foldl_processLine_fst (ls : List Str) (acc : Int × Int)
    (h : ∀ line ∈ ls, hasPrefix line uploadPrefix = false) :
    (ls.foldl processLine acc).1 = acc.1 := by
  induction ls generalizing acc with
  | nil => rfl
  | cons l t ih =>
    rw [List.foldl_cons,
      ih (processLine acc l) (fun x hx => h x (List.mem_cons_of_mem _ hx))]
    exact processLine_fst_stable acc l (h l (List.mem_cons_self _ _))

/-- With no download-matching line, the download counter stays at its
initial value. -/
theorem foldl_processLine_snd (ls : List Str) (acc : Int × Int)
    (h : ∀ line ∈ ls, hasPrefix line downloadPrefix = false) :
    (ls.foldl processLine acc).2 = acc.2 := by
  induction ls generalizing acc with
  | nil => rfl
  | cons l t ih =>
    rw [List.foldl_cons,
      ih (processLine acc l) (fun x hx => h x (List.mem_cons_of_mem _ hx))]
    exact processLine_snd_stable acc l (h l (List.mem_cons_self _ _))

/-- `filterArgs` keeps a subsequence of the argument list: the relative
order of everything kept is preserved. -/
theorem filterArgs_sublist (l s : Str) :
    (args : List Str) → List.Sublist (filterArgs l s args) args
  | [] => by simp [filterArgs]
  | [a] => by
    unfold filterArgs
    split_ifs <;> simp
  | a :: b :: rest => by
    unfold filterArgs
    split_ifs with h1 h2 h3
    · exact List.Sublist.cons _ (List.Sublist.cons _ (filterArgs_sublist l s rest))
    · exact List.Sublist.cons _ (filterArgs_sublist l s (b :: rest))
    · exact List.Sublist.cons _ (filterArgs_sublist l s (b :: rest))
    · exact List.Sublist.cons₂ _ (filterArgs_sublist l s (b :: rest))

/-- No occurrence of the targeted flag survives `filterArgs`: neither the
bare long/short form nor a `flag=value` form. -/
theorem filterArgs_no_flag (l s : Str) :
    (args : List Str) → ∀ x ∈ filterArgs l s args, isFlagOcc l s x = false
  | [] => by simp [filterArgs]
  | [a] => by
    unfold filterArgs
    split_ifs with h1 h2 <;> intro x hx
    · simp at hx
    · simp at hx
    · simp only [List.mem_singleton] at hx
      subst hx
      simp only [Bool.or_eq_true, decide_eq_true_eq, not_or] at h1 h2
      simp only [isFlagOcc, Bool.or_eq_false_iff, decide_eq_false_iff_not]
      refine ⟨⟨⟨h1.1, h1.2⟩, ?_⟩, ?_⟩ <;> simp_all
  | a :: b :: rest => by
    unfold filterArgs
    split_ifs with h1 h2 h3 <;> intro x hx
    · exact filterArgs_no_flag l s rest x hx
    · exact filterArgs_no_flag l s (b :: rest) x hx
    · exact filterArgs_no_flag l s (b :: rest) x hx
    · rcases List.mem_cons.1 hx with rfl | hx'
      · simp only [Bool.or_eq_true, decide_eq_true_eq, not_or] at h1 h3
        simp only [isFlagOcc, Bool.or_eq_false_iff, decide_eq_false_iff_not]
        refine ⟨⟨⟨h1.1, h1.2⟩, ?_⟩, ?_⟩ <;> simp_all
      · exact filterArgs_no_flag l s (b :: rest) x hx'

/-- An argument list containing no occurrence of the targeted flag passes
through `filterArgs` unchanged: only the flag and its value are ever
removed. -/
theorem filterArgs_id_of_clean (l s : Str) :
    (args : List Str) → (∀ x ∈ args, isFlagOcc l s x = false) →
      filterArgs l s args = args
  | [], _ => by simp [filterArgs]
  | [a], h => by
    have ha : isFlagOcc l s a = false := h a (by simp)
    simp only [isFlagOcc, Bool.or_eq_false_iff, decide_eq_false_iff_not] at ha
    obtain ⟨⟨⟨ha1, ha2⟩, ha3⟩, ha4⟩ := ha
    unfold filterArgs
    rw [if_neg (by simp [ha1, ha2]), if_neg (by simp [ha3, ha4])]
  | a :: b :: rest, h => by
    have ha : isFlagOcc l s a = false := h a (by simp)
    simp only [isFlagOcc, Bool.or_eq_false_iff, decide_eq_false_iff_not] at ha
    obtain ⟨⟨⟨ha1, ha2⟩, ha3⟩, ha4⟩ := ha
    unfold filterArgs
    rw [if_neg (by simp [ha1, ha2]), if_neg (by simp [ha3, ha4])]
    rw [filterArgs_id_of_clean l s (b :: rest)
      (fun x hx => h x (List.mem_cons_of_mem _ hx))]

/-! ## Claim theorems -/

/-- Claim C1 (code bug): after a period rollover in NORMAL mode (no
restart raised, the worker keeps running with its cumulative counters
intact), the next scrape should increase the fresh ledger only by the
bytes transferred since the previous scrape.  The code instead resets
`lastScrapeTotal` to 0 at rollover, so a scrape reporting the same
cumulative total of 1000 bytes — all of which were already accounted in
the previous period — is charged in full to the fresh ledger: `bytesUsed`
ends at 1000 instead of 0, double-counting every previously accounted
byte. -/
theorem C1_rollover_double_count :
    (checkRollover (periodDuration 7) (periodDuration 7 + 1)
        ⟨⟨0, 1000, false⟩, 1000⟩).2.1 = true ∧
    (checkRollover (periodDuration 7) (periodDuration 7 + 1)
        ⟨⟨0, 1000, false⟩, 1000⟩).2.2 = false ∧
    (checkRollover (periodDuration 7) (periodDuration 7 + 1)
        ⟨⟨0, 1000, false⟩, 1000⟩).1 = ⟨⟨periodDuration 7 + 1, 0, false⟩, 0⟩ ∧
    (updateUsage 85899345920 ⟨⟨periodDuration 7 + 1, 0, false⟩, 0⟩
        1000).1.state.bytesUsed = 1000 :=
  ⟨by decide, by decide, by decide, by decide⟩

/-- Claim C2 (counterexample): the claim says the reset occurs exactly
when `now ≥ periodStart + periodLength`, in particular at `now =
periodStart + periodLength`.  The code uses Go's strict `now.After(periodEnd)`,
so at that exact instant — `now = 0 + periodDuration 7`, which satisfies
`now ≥ periodStart + periodLength` — no reset happens and the ledger is
returned unchanged. -/
theorem C2_rollover_boundary_counterexample :
    (0 : Int) + periodDuration 7 ≤ periodDuration 7 ∧
    checkRollover (periodDuration 7) (periodDuration 7)
        ⟨⟨0, 1000, true⟩, 1000⟩ =
      (⟨⟨0, 1000, true⟩, 1000⟩, false, false) := by
  constructor
  · simp
  · decide

/-- Claim C2 (amended): the rollover check resets the ledger
(`bytesUsed = 0`, `isThrottled = false`, `periodStart = now`) if and only
if `now` is strictly after `periodStart + periodLength`; for every `now`
at or before that instant the ledger is left completely unchanged. -/
theorem C2_rollover_strict (pd now : Int) (m : MonState) :
    (m.state.periodStartTime + pd < now →
      checkRollover pd now m =
        (⟨⟨now, 0, false⟩, 0⟩, true, m.state.isThrottled)) ∧
    (now ≤ m.state.periodStartTime + pd →
      checkRollover pd now m = (m, false, false)) := by
  unfold checkRollover
  constructor <;> intro h
  · rw [if_pos (by omega)]
  · rw [if_neg (by omega)]

/-- Witness for `C2_rollover_strict` at concrete inputs: a rollover one
tick after the period end, and no change exactly at the period end. -/
theorem C2_rollover_strict_witness :
    checkRollover 700 701 ⟨⟨0, 5, true⟩, 9⟩ = (⟨⟨701, 0, false⟩, 0⟩, true, true) ∧
    checkRollover 700 700 ⟨⟨0, 5, true⟩, 9⟩ = (⟨⟨0, 5, true⟩, 9⟩, false, false) :=
  ⟨(C2_rollover_strict 700 701 ⟨⟨0, 5, true⟩, 9⟩).1 (by decide),
   (C2_rollover_strict 700 700 ⟨⟨0, 5, true⟩, 9⟩).2 (by decide)⟩

/-- Claim C3: for a non-negative scraped total, the accounted delta is
`current - lastScrapeTotal` when non-negative and the entire `current`
when negative (worker restart); `bytesUsed` never decreases, and
afterwards `lastScrapeTotal = current`. -/
theorem C3_delta_accounting (th : Int) (m : MonState) (current : Int)
    (hcur : 0 ≤ current) :
    ((updateUsage th m current).1).lastScrapeTotal = current ∧
    (m.lastScrapeTotal ≤ current →
      ((updateUsage th m current).1).state.bytesUsed =
        m.state.bytesUsed + (current - m.lastScrapeTotal)) ∧
    (current < m.lastScrapeTotal →
      ((updateUsage th m current).1).state.bytesUsed =
        m.state.bytesUsed + current) ∧
    m.state.bytesUsed ≤ ((updateUsage th m current).1).state.bytesUsed := by
  rw [updateUsage_eq]
  refine ⟨rfl, ?_, ?_, ?_⟩
  · intro h; simp only [postBytesUsed, usageDelta]; split_ifs <;> omega
  · intro h; simp only [postBytesUsed, usageDelta]; split_ifs <;> omega
  · simp only [postBytesUsed, usageDelta]; split_ifs <;> omega

/-- Witness for `C3_delta_accounting`: with `lastScrapeTotal = 5000000`
and a scrape of `4000000` (worker restart), `bytesUsed` grows by exactly
`4000000` and `lastScrapeTotal` becomes `4000000`. -/
theorem C3_delta_accounting_witness :
    ((updateUsage 999999999999 ⟨⟨0, 10, false⟩, 5000000⟩ 4000000).1).state.bytesUsed
        = 10 + 4000000 ∧
    ((updateUsage 999999999999 ⟨⟨0, 10, false⟩, 5000000⟩ 4000000).1).lastScrapeTotal
        = 4000000 :=
  ⟨(C3_delta_accounting 999999999999 ⟨⟨0, 10, false⟩, 5000000⟩ 4000000
      (by decide)).2.2.1 (by decide),
   (C3_delta_accounting 999999999999 ⟨⟨0, 10, false⟩, 5000000⟩ 4000000
      (by decide)).1⟩

/-- Claim C4: the throttle flag after an update is the old flag OR-ed
with the threshold test on the updated `bytesUsed` (so it flips false to
true exactly when unset and the threshold is reached, and never
un-flips); a throttle-induced restart is raised exactly on that fresh
crossing, so once the flag is true no later update raises another. -/
theorem C4_throttle_flip (th : Int) (m : MonState) (current : Int) :
    ((updateUsage th m current).1).state.isThrottled =
      (m.state.isThrottled
        || decide (((updateUsage th m current).1).state.bytesUsed ≥ th)) ∧
    (updateUsage th m current).2 =
      (!m.state.isThrottled
        && decide (((updateUsage th m current).1).state.bytesUsed ≥ th)) ∧
    (m.state.isThrottled = true →
      (updateUsage th m current).2 = false ∧
      ((updateUsage th m current).1).state.isThrottled = true) := by
  rw [updateUsage_eq]
  refine ⟨?_, ?_, ?_⟩
  · cases m.state.isThrottled <;> simp
  · cases m.state.isThrottled <;> simp
  · intro h; rw [h]; simp

/-- Witness for `C4_throttle_flip`: a 100 GB limit at an 80 % threshold
(85899345920 bytes); a ledger just below the threshold crosses it after
a further delta and flips exactly once (restart raised), and the
following update neither re-flips nor raises another restart. -/
theorem C4_throttle_flip_witness :
    (updateUsage 85899345920 ⟨⟨0, 85791971737, false⟩, 85791971737⟩ 86006720101).2
      = true ∧
    ((updateUsage 85899345920 ⟨⟨0, 85791971737, false⟩, 85791971737⟩
        86006720101).1).state.isThrottled = true ∧
    (updateUsage 85899345920
        (updateUsage 85899345920 ⟨⟨0, 85791971737, false⟩, 85791971737⟩
          86006720101).1 86006721101).2 = false ∧
    ((updateUsage 85899345920
        (updateUsage 85899345920 ⟨⟨0, 85791971737, false⟩, 85791971737⟩
          86006720101).1 86006721101).1).state.isThrottled = true := by
  refine ⟨by decide, by decide, ?_, ?_⟩
  · exact ((C4_throttle_flip 85899345920
      (updateUsage 85899345920 ⟨⟨0, 85791971737, false⟩, 85791971737⟩
        86006720101).1 86006721101).2.2 (by decide)).1
  · exact ((C4_throttle_flip 85899345920
      (updateUsage 85899345920 ⟨⟨0, 85791971737, false⟩, 85791971737⟩
        86006720101).1 86006721101).2.2 (by decide)).2

/-- Claim C5: the restart channel holds at most one pending request; a
trigger while one is pending is dropped (the buffer is unchanged), and
two triggers before any consumption leave exactly one pending request,
whose single consumption empties the channel — one relaunch, not two. -/
theorem C5_restart_coalescing (ch : List Unit) (h : ch.length ≤ 1) :
    (triggerRestart ch).length ≤ 1 ∧
    (ch = [()] → triggerRestart ch = ch) ∧
    triggerRestart (triggerRestart []) = [()] ∧
    consumeRestart (triggerRestart (triggerRestart [])) = some [] ∧
    consumeRestart ([] : List Unit) = none := by
  refine ⟨?_, ?_, rfl, rfl, rfl⟩
  · unfold triggerRestart; split_ifs <;> simp_all
  · intro h2; subst h2; rfl

/-- Witness for `C5_restart_coalescing` on a full channel: a trigger on a
channel with one pending request keeps it at one and drops the new
request. -/
theorem C5_restart_coalescing_witness :
    (triggerRestart [()]).length ≤ 1 ∧ triggerRestart [()] = [()] :=
  ⟨(C5_restart_coalescing [()] (by decide)).1,
   (C5_restart_coalescing [()] (by decide)).2.1 rfl⟩

/-- Claim C6: every stop of a started child first sends the termination
signal and then races the exit notification against the 5-second
timeout: the trace begins with SIGTERM and ends with the exit
notification in both arms, the graceful arm is exactly
`[SIGTERM, exit]` (not forced), and the timeout arm is exactly
`[SIGTERM, SIGKILL, exit]` (forced), so the stop returns only after the
process has exited. -/
theorem C6_graceful_then_forceful :
    (∀ b, (shutdownChild b).head? = some StopEvent.sigterm) ∧
    (∀ b, (shutdownChild b).getLast? = some StopEvent.recvExit) ∧
    shutdownChild true = [StopEvent.sigterm, StopEvent.recvExit] ∧
    stopForced true = false ∧
    shutdownChild false = [StopEvent.sigterm, StopEvent.sigkill, StopEvent.recvExit] ∧
    stopForced false = true ∧
    shutdownTimeoutSeconds = 5 := by decide

/-- Claim C7: a metrics line changes a counter only when its first
whitespace-separated token is exactly the counter name (so
`conduit_bytes_uploaded_total 500` matches neither counter), counters
with no matching line stay at their default 0, and a scrape of any
received body succeeds, returning the sum of the two counters. -/
theorem C7_exact_token_match :
    (∀ acc line, (processLine acc line).1 ≠ acc.1 →
        (goFields line).head? = some "conduit_bytes_uploaded".data) ∧
    (∀ acc line, (processLine acc line).2 ≠ acc.2 →
        (goFields line).head? = some "conduit_bytes_downloaded".data) ∧
    processLine (0, 0) "conduit_bytes_uploaded_total 500".data = (0, 0) ∧
    (∀ body, (∀ line ∈ splitOnChar '\n' body,
        hasPrefix line uploadPrefix = false) →
      (parseMetricsBody body).1 = 0) ∧
    (∀ body, (∀ line ∈ splitOnChar '\n' body,
        hasPrefix line downloadPrefix = false) →
      (parseMetricsBody body).2 = 0) ∧
    (∀ body, scrapeBytesUsed true body =
      some ((parseMetricsBody body).1 + (parseMetricsBody body).2)) := by
  refine ⟨?_, ?_, by decide, ?_, ?_, fun body => rfl⟩
  · intro acc line h
    by_cases hp : hasPrefix line uploadPrefix = true
    · exact upload_token_of_match line hp
    · exact absurd (processLine_fst_stable acc line (by simpa using hp)) h
  · intro acc line h
    by_cases hp : hasPrefix line downloadPrefix = true
    · exact download_token_of_match line hp
    · exact absurd (processLine_snd_stable acc line (by simpa using hp)) h
  · intro body h
    exact foldl_processLine_fst _ _ h
  · intro body h
    exact foldl_processLine_snd _ _ h

/-- Witness for `C7_exact_token_match`: a line that sets the upload
counter has name token exactly `conduit_bytes_uploaded`; a body whose
only line is `conduit_bytes_uploaded_total 500` leaves the upload counter
at 0; scraping that body succeeds with the sum of the counters. -/
theorem C7_exact_token_match_witness :
    (goFields "conduit_bytes_uploaded 7".data).head? =
      some "conduit_bytes_uploaded".data ∧
    (parseMetricsBody "conduit_bytes_uploaded_total 500".data).1 = 0 ∧
    scrapeBytesUsed true "conduit_bytes_uploaded_total 500".data =
      some ((parseMetricsBody "conduit_bytes_uploaded_total 500".data).1 +
        (parseMetricsBody "conduit_bytes_uploaded_total 500".data).2) :=
  ⟨C7_exact_token_match.1 (0, 0) "conduit_bytes_uploaded 7".data (by decide),
   C7_exact_token_match.2.2.2.1 "conduit_bytes_uploaded_total 500".data
     (by decide),
   C7_exact_token_match.2.2.2.2.2 "conduit_bytes_uploaded_total 500".data⟩

/-- Claim C8: in NORMAL mode the operator arguments pass through
unchanged; in THROTTLED mode the launch arguments are the operator list
with every max-clients and bandwidth flag occurrence removed (the
filtered list is a subsequence of the original, so the relative order of
everything kept is preserved, and it contains no occurrence of either
flag in any form), followed by exactly one `--max-clients` override pair
and one `--bandwidth` override pair; an argument list free of both flags
is preserved verbatim before the overrides. -/
theorem C8_throttled_arg_override (args : List Str) (mcStr bwStr : Str) :
    launchArgs args false mcStr bwStr = args ∧
    launchArgs args true mcStr bwStr =
      filterArgs bandwidthFlag bandwidthShort
          (filterArgs maxClientsFlag maxClientsShort args) ++
        [maxClientsFlag, mcStr, bandwidthFlag, bwStr] ∧
    List.Sublist (filterArgs bandwidthFlag bandwidthShort
      (filterArgs maxClientsFlag maxClientsShort args)) args ∧
    (∀ x ∈ filterArgs bandwidthFlag bandwidthShort
        (filterArgs maxClientsFlag maxClientsShort args),
      isFlagOcc maxClientsFlag maxClientsShort x = false ∧
      isFlagOcc bandwidthFlag bandwidthShort x = false) ∧
    ((∀ x ∈ args, isFlagOcc maxClientsFlag maxClientsShort x = false ∧
        isFlagOcc bandwidthFlag bandwidthShort x = false) →
      launchArgs args true mcStr bwStr =
        args ++ [maxClientsFlag, mcStr, bandwidthFlag, bwStr]) := by
  refine ⟨rfl, rfl, ?_, ?_, ?_⟩
  · exact (filterArgs_sublist bandwidthFlag bandwidthShort _).trans
      (filterArgs_sublist maxClientsFlag maxClientsShort args)
  · intro x hx
    refine ⟨?_, filterArgs_no_flag bandwidthFlag bandwidthShort _ x hx⟩
    exact filterArgs_no_flag maxClientsFlag maxClientsShort args x
      ((filterArgs_sublist bandwidthFlag bandwidthShort _).subset hx)
  · intro h
    simp only [launchArgs, if_true]
    rw [filterArgs_id_of_clean maxClientsFlag maxClientsShort args
      (fun x hx => (h x hx).1)]
    rw [filterArgs_id_of_clean bandwidthFlag bandwidthShort args
      (fun x hx => (h x hx).2)]

/-- Witness for `C8_throttled_arg_override`: a mixed operator list with a
space-separated `--max-clients 5` and a `-b=3` form is stripped of both,
keeps `relay`/`--verbose` in order, and receives the two override pairs;
a flag-free list passes through verbatim before the overrides. -/
theorem C8_throttled_arg_override_witness :
    launchArgs ["relay".data, "--max-clients".data, "5".data, "-b=3".data,
        "--verbose".data] true "10".data "12".data =
      ["relay".data, "--verbose".data, maxClientsFlag, "10".data,
        bandwidthFlag, "12".data] ∧
    launchArgs ["relay".data, "--verbose".data] true "10".data "12".data =
      ["relay".data, "--verbose".data] ++
        [maxClientsFlag, "10".data, bandwidthFlag, "12".data] :=
  ⟨by decide,
   (C8_throttled_arg_override ["relay".data, "--verbose".data]
     "10".data "12".data).2.2.2.2 (by decide)⟩

/-- Claim C9: a non-zero child exit after a successful start yields a
5-second backoff and a relaunch; the loop body leaves the ledger
untouched, so when the throttle flag still equals the failed launch's
mode the relaunch arguments are identical to the failed launch's; a zero
exit stops the loop, a failed start is fatal (not retried), and the
backoff-relaunch action arises only from a non-zero child exit. -/
theorem C9_crash_backoff_relaunch (m : MonState) (args : List Str)
    (mcStr bwStr : Str) (modeAtFailedLaunch : Bool) (c : Int)
    (hc : c ≠ 0) (hmode : m.state.isThrottled = modeAtFailedLaunch) :
    runIteration m true (LoopEvent.childExit c) =
      (IterResult.backoffRelaunch 5, m) ∧
    launchArgs args m.state.isThrottled mcStr bwStr =
      launchArgs args modeAtFailedLaunch mcStr bwStr ∧
    runIteration m true (LoopEvent.childExit 0) = (IterResult.stopped, m) ∧
    (∀ ev, runIteration m false ev = (IterResult.fatalError, m)) ∧
    (∀ ev ok, (runIteration m ok ev).1 = IterResult.backoffRelaunch 5 →
      ok = true ∧ ∃ code, code ≠ 0 ∧ ev = LoopEvent.childExit code) := by
  refine ⟨by simp [runIteration, hc], by rw [hmode], by simp [runIteration],
    fun ev => by simp [runIteration], ?_⟩
  intro ev ok h
  cases ok
  · simp [runIteration] at h
  · refine ⟨rfl, ?_⟩
    cases ev with
    | childExit code =>
      by_cases hcode : code = 0
      · subst hcode; simp [runIteration] at h
      · exact ⟨code, hcode, rfl⟩
    | restartRequest => simp [runIteration] at h
    | osSignal => simp [runIteration] at h
    | stopRequest => simp [runIteration] at h

/-- Witness for `C9_crash_backoff_relaunch`: a child exiting with code 1
in NORMAL mode leads to the 5-second backoff relaunch with the ledger
unchanged. -/
theorem C9_crash_backoff_relaunch_witness :
    runIteration ⟨⟨0, 0, false⟩, 0⟩ true (LoopEvent.childExit 1) =
      (IterResult.backoffRelaunch 5, ⟨⟨0, 0, false⟩, 0⟩) :=
  (C9_crash_backoff_relaunch ⟨⟨0, 0, false⟩, 0⟩ [] [] [] false 1
    (by decide) rfl).1

/-- Claim C10: a body whose upload line carries an unparseable value
(`abc`) still scrapes successfully — the malformed counter silently stays
0 and the total is the download counter alone (300) — and feeding that
lower total into delta accounting with `lastScrapeTotal = 1000` trips the
negative-delta worker-restart rule: the whole reported total of 300 is
accounted as new usage and `lastScrapeTotal` becomes 300. -/
theorem C10_malformed_value_no_error (b th p : Int) (thr : Bool) :
    scrapeBytesUsed true
        "conduit_bytes_uploaded abc\nconduit_bytes_downloaded 300".data =
      some 300 ∧
    (updateUsage th ⟨⟨p, b, thr⟩, 1000⟩ 300).1.state.bytesUsed = b + 300 ∧
    (updateUsage th ⟨⟨p, b, thr⟩, 1000⟩ 300).1.lastScrapeTotal = 300 := by
  refine ⟨by decide, ?_, ?_⟩
  · rw [updateUsage_eq]
    simp only [postBytesUsed, usageDelta]
    norm_num
  · rw [updateUsage_eq]

end ConduitMonitor
